import Mathlib

/-!
Verification of the Portugal Running event scraper
(`src/scraper/portugal-running-cli.py`).

This file gives a shallow embedding of the data model and the pure logic of
the scraper — the event builder, the district-code lookup, the encoding
repair pass, the tag classifier, the LLM output parser, the geocoder
adapter, the per-listing enrichment pipeline, the batch collector, the
aggregate-file generator and the cache reader — and proves or refutes the
specification claims about them.

Conventions of the embedding:
* Python `Optional[T]` becomes `Option T`; Python truthiness of strings
  (`if s:`) becomes `s ≠ ""`, of ints `n ≠ 0`, of lists `l ≠ []`.
* Python `float` values that are only ever copied (coordinates) are
  embedded as `Rat`; no floating-point arithmetic is modelled except in
  the distance extractor, where `int(value * multiplier)` is computed
  exactly over the naturals (the decimal string is parsed exactly).
* External effects (HTTP fetches, subprocess calls, the LLM backend, the
  file system) are passed in explicitly as `Except`/`Option` values or as
  a small state record, mirroring exactly where the Python code raises,
  catches, or defaults.
* Python `str` is embedded as `String`, except in the encoding-repair
  pass and the substring scanner where `List Char` is used so that the
  left-to-right non-overlapping semantics of `str.replace` can be defined
  by recursion.
-/

namespace PortugalRunning

/-! ## Python-level helpers -/

/-- Python `a or b` for strings: `a` unless it is `None` or empty. -/
def pyOrStr (a : Option String) (b : String) : String :=
  match a with
  | some s => if s = "" then b else s
  | none => b

/-- Python `a or b` for lists: `a` unless it is empty. -/
def pyOrList {α : Type} (a b : List α) : List α :=
  match a with
  | [] => b
  | _ => a

/-- Python `str.lower` restricted to the character repertoire appearing in
this program's static tables and test inputs: ASCII letters plus the
accented uppercase letters used in the district table and the encoding
tables. Characters outside this repertoire are unchanged, which agrees
with Python on every string this development evaluates. -/
def pyLowerChar (c : Char) : Char :=
  if 'A' ≤ c ∧ c ≤ 'Z' then Char.ofNat (c.toNat + 32)
  else if c = 'Ã' then 'ã'
  else if c = 'Ç' then 'ç'
  else if c = 'É' then 'é'
  else if c = 'Á' then 'á'
  else if c = 'Ó' then 'ó'
  else if c = 'Ú' then 'ú'
  else if c = 'Â' then 'â'
  else if c = 'Ê' then 'ê'
  else if c = 'Í' then 'í'
  else if c = 'Õ' then 'õ'
  else if c = 'À' then 'à'
  else c

/-- Python `str.lower` (see `pyLowerChar`). -/
def pyLower (s : String) : String :=
  String.mk (s.toList.map pyLowerChar)

/-- Python whitespace test for `str.strip()` (ASCII whitespace; the
strings this program strips contain no exotic Unicode spaces). -/
def pyIsSpace (c : Char) : Bool :=
  c = ' ' || c = '\t' || c = '\n' || c = '\r' || c = '\x0b' || c = '\x0c'

/-- Python `str.strip()`: drop leading and trailing whitespace. -/
def pyStrip (s : String) : String :=
  String.mk (((s.data.dropWhile pyIsSpace).reverse.dropWhile pyIsSpace).reverse)

/-- Does `p` occur as a contiguous run inside `s`?  Models Python's
substring test `p in s` (and the scanning done by `str.replace`). -/
def occursB (p : List Char) : List Char → Bool
  | [] => p.isEmpty
  | c :: rest => p.isPrefixOf (c :: rest) || occursB p rest

/-- Propositional form of substring occurrence. -/
def OccursIn (p s : List Char) : Prop := ∃ l r, s = l ++ p ++ r

/-- Python `p in s` on strings. -/
def pyIn (p s : String) : Bool := occursB p.toList s.toList

theorem occursB_iff (p : List Char) :
    ∀ s : List Char, occursB p s = true ↔ OccursIn p s := by
  intro s
  induction s with
  | nil =>
    simp only [occursB, OccursIn, List.isEmpty_iff]
    constructor
    · rintro rfl; exact ⟨[], [], rfl⟩
    · rintro ⟨l, r, h⟩
      have hl := congrArg List.length h
      simp only [List.length_nil, List.length_append] at hl
      have : p.length = 0 := by omega
      exact List.length_eq_zero.mp this
  | cons c rest ih =>
    simp only [occursB, Bool.or_eq_true, List.isPrefixOf_iff_prefix]
    constructor
    · rintro (⟨t, ht⟩ | h)
      · exact ⟨[], t, by simp [← ht]⟩
      · obtain ⟨l, r, rfl⟩ := ih.mp h
        exact ⟨c :: l, r, by simp⟩
    · rintro ⟨l, r, h⟩
      match l, h with
      | [], h => exact Or.inl ⟨r, by simpa using h.symm⟩
      | a :: l, h =>
        right
        apply ih.mpr
        exact ⟨l, r, by simpa using congrArg List.tail h⟩

instance (p s : List Char) : Decidable (OccursIn p s) :=
  decidable_of_iff _ (occursB_iff p s)

/-! ## Canonical event types

Source: `class EventType(Enum)` (lines 108–123).  The `Milha` value is the
literal string value of `EventType.MILE` in the source. -/

inductive EventType where
  | marathon
  | halfMarathon
  | fifteenK
  | tenK
  | fiveK
  | mile
  | run
  | trail
  | walk
  | crossCountry
  | saintSilvester
  | kids
  | relay
deriving DecidableEq, Repr, Fintype

/-- The string value of each enum member (`EventType.X.value` in Python). -/
def EventType.value : EventType → String
  | .marathon => "marathon"
  | .halfMarathon => "half-marathon"
  | .fifteenK => "15k"
  | .tenK => "10k"
  | .fiveK => "5k"
  | .mile => "Milha"
  | .run => "run"
  | .trail => "trail"
  | .walk => "walk"
  | .crossCountry => "cross-country"
  | .saintSilvester => "saint-silvester"
  | .kids => "kids"
  | .relay => "relay"

/-- All enum members, in declaration order. -/
def EventType.all : List EventType :=
  [.marathon, .halfMarathon, .fifteenK, .tenK, .fiveK, .mile, .run,
   .trail, .walk, .crossCountry, .saintSilvester, .kids, .relay]

/-- Python `EventType(s)`: the enum member whose value is `s`, if any
(`EventType(s)` raises `ValueError` when this is `none`). -/
def EventType.fromValue? (s : String) : Option EventType :=
  EventType.all.find? (fun t => EventType.value t = s)

/-- `EVENT_TYPE_DISTANCES` (lines 127–134). -/
def EVENT_TYPE_DISTANCES : List (EventType × Int) :=
  [(.marathon, 42195), (.halfMarathon, 21097), (.fifteenK, 15000),
   (.tenK, 10000), (.fiveK, 5000), (.mile, 1600)]

/-! ## Data classes -/

/-- `Coordinates` (lines 137–145); floats embedded as rationals, they are
only ever copied, never computed with. -/
structure Coordinates where
  lat : Rat
  lon : Rat
deriving DecidableEq, Repr

/-- `EventLocation` (lines 148–176). -/
structure EventLocation where
  name : String
  country : String
  locality : String
  coordinates : Option Coordinates := none
  administrative_area_level_1 : Option String := none
  administrative_area_level_2 : Option String := none
  administrative_area_level_3 : Option String := none
  district_code : Option Int := none
deriving DecidableEq, Repr

/-- `WIcs` (lines 179–190): structured data extracted from ICS files. -/
structure WIcs where
  location : Option String := none
  start_date : Option String := none
  end_date : Option String := none
  description : Option String := none
  summary : Option String := none
deriving DecidableEq, Repr

/-- `WEvent` (lines 201–215): raw event data from the WordPress API. -/
structure WEvent where
  id : Int
  date : String
  link : String
  slug : String
  title : String
  class_list : List String
  content : Option String := none
  featured_media : Option Int := none
  featured_image_src : Option String := none
deriving DecidableEq, Repr

/-- `Event` (lines 218–247): the complete, immutable event record. -/
structure Event where
  id : Int
  name : String
  location : String
  coordinates : Option Coordinates
  country : String
  locality : String
  distances : List Int
  types : List String
  images : List String
  start_date : String
  end_date : String
  circuit : List String
  description : String
  description_short : Option String
  page : Option String
  slug : Option String := none
  administrative_area_level_1 : Option String := none
  administrative_area_level_2 : Option String := none
  administrative_area_level_3 : Option String := none
  district_code : Option Int := none
deriving DecidableEq, Repr

/-! ## EventBuilder (lines 250–444)

One mutable accumulator per listing.  Each Python method
`def setX(self, v, overwrite=False)` becomes a pure function from builder
to builder; the `overwrite` argument is passed explicitly (the Python
default is `False`). -/

structure EventBuilder where
  id : Int
  name : Option String := none
  location : Option String := none
  coordinates : Option Coordinates := none
  country : Option String := none
  locality : Option String := none
  distances : List Int := []
  types : List EventType := []
  images : List String := []
  start_date : Option String := none
  end_date : Option String := none
  circuit : List String := []
  description : Option String := none
  description_short : Option String := none
  page : Option String := none
  slug : Option String := none
  administrative_area_level_1 : Option String := none
  administrative_area_level_2 : Option String := none
  administrative_area_level_3 : Option String := none
  district_code : Option Int := none
deriving DecidableEq, Repr

/-- `EventBuilder.__init__` (lines 272–277). -/
def EventBuilder.init (event_id : Int) : EventBuilder := { id := event_id }

/-- `add_event_type` (lines 279–283): append-only with de-duplication. -/
def EventBuilder.add_event_type (b : EventBuilder) (t : EventType) : EventBuilder :=
  if t ∈ b.types then b else { b with types := b.types ++ [t] }

/-- `set_name` (lines 285–289). -/
def EventBuilder.set_name (b : EventBuilder) (v : String) (overwrite : Bool) : EventBuilder :=
  if b.name = none ∨ overwrite = true then { b with name := some v } else b

/-- `set_location` (lines 291–297). -/
def EventBuilder.set_location (b : EventBuilder) (v : String) (overwrite : Bool) : EventBuilder :=
  if b.location = none ∨ overwrite = true then { b with location := some v } else b

/-- `set_coordinates` (lines 299–305). -/
def EventBuilder.set_coordinates (b : EventBuilder) (v : Coordinates) (overwrite : Bool) : EventBuilder :=
  if b.coordinates = none ∨ overwrite = true then { b with coordinates := some v } else b

/-- `set_country` (lines 307–313). -/
def EventBuilder.set_country (b : EventBuilder) (v : String) (overwrite : Bool) : EventBuilder :=
  if b.country = none ∨ overwrite = true then { b with country := some v } else b

/-- `set_locality` (lines 315–321). -/
def EventBuilder.set_locality (b : EventBuilder) (v : String) (overwrite : Bool) : EventBuilder :=
  if b.locality = none ∨ overwrite = true then { b with locality := some v } else b

/-- `set_administrative_area_level_1` (lines 323–329). -/
def EventBuilder.set_administrative_area_level_1 (b : EventBuilder) (v : String) (overwrite : Bool) : EventBuilder :=
  if b.administrative_area_level_1 = none ∨ overwrite = true then
    { b with administrative_area_level_1 := some v } else b

/-- `set_administrative_area_level_2` (lines 331–337). -/
def EventBuilder.set_administrative_area_level_2 (b : EventBuilder) (v : String) (overwrite : Bool) : EventBuilder :=
  if b.administrative_area_level_2 = none ∨ overwrite = true then
    { b with administrative_area_level_2 := some v } else b

/-- `set_administrative_area_level_3` (lines 339–345). -/
def EventBuilder.set_administrative_area_level_3 (b : EventBuilder) (v : String) (overwrite : Bool) : EventBuilder :=
  if b.administrative_area_level_3 = none ∨ overwrite = true then
    { b with administrative_area_level_3 := some v } else b

/-- `set_district_code` (lines 347–353). -/
def EventBuilder.set_district_code (b : EventBuilder) (v : Int) (overwrite : Bool) : EventBuilder :=
  if b.district_code = none ∨ overwrite = true then { b with district_code := some v } else b

/-- `add_distance` (lines 355–359): deduplicated, re-sorted after insert
(`self.distances.sort()` is an ascending stable in-place sort). -/
def EventBuilder.add_distance (b : EventBuilder) (d : Int) : EventBuilder :=
  if d ∉ b.distances then
    { b with distances := (b.distances ++ [d]).insertionSort (· ≤ ·) }
  else b

/-- `add_image` (lines 361–364). -/
def EventBuilder.add_image (b : EventBuilder) (url : String) : EventBuilder :=
  if url ∉ b.images then { b with images := b.images ++ [url] } else b

/-- `set_start_date` (lines 366–372). -/
def EventBuilder.set_start_date (b : EventBuilder) (v : String) (overwrite : Bool) : EventBuilder :=
  if b.start_date = none ∨ overwrite = true then { b with start_date := some v } else b

/-- `set_end_date` (lines 374–380). -/
def EventBuilder.set_end_date (b : EventBuilder) (v : String) (overwrite : Bool) : EventBuilder :=
  if b.end_date = none ∨ overwrite = true then { b with end_date := some v } else b

/-- `add_circuit` (lines 382–385). -/
def EventBuilder.add_circuit (b : EventBuilder) (c : String) : EventBuilder :=
  if c ∉ b.circuit then { b with circuit := b.circuit ++ [c] } else b

/-- `set_description` (lines 387–394). -/
def EventBuilder.set_description (b : EventBuilder) (v : String) (overwrite : Bool) : EventBuilder :=
  if b.description = none ∨ overwrite = true then { b with description := some v } else b

/-- `set_description_short` (lines 396–402). -/
def EventBuilder.set_description_short (b : EventBuilder) (v : String) (overwrite : Bool) : EventBuilder :=
  if b.description_short = none ∨ overwrite = true then { b with description_short := some v } else b

/-- `set_event_page` (lines 404–410); the field is called `page`. -/
def EventBuilder.set_event_page (b : EventBuilder) (v : String) (overwrite : Bool) : EventBuilder :=
  if b.page = none ∨ overwrite = true then { b with page := some v } else b

/-- `set_slug` (lines 412–416). -/
def EventBuilder.set_slug (b : EventBuilder) (v : String) (overwrite : Bool) : EventBuilder :=
  if b.slug = none ∨ overwrite = true then { b with slug := some v } else b

/-- `build` (lines 418–444): materialize defaults for unset fields.
Python `x or default` treats `None` and `""`/`[]` as falsy, hence
`pyOrStr`/`pyOrList`. -/
def EventBuilder.build (b : EventBuilder) : Event :=
  { id := b.id
    name := pyOrStr b.name "Unknown Event"
    location := pyOrStr b.location "Unknown Location"
    coordinates := b.coordinates
    country := pyOrStr b.country "Portugal"
    locality := pyOrStr b.locality "Unknown"
    distances := pyOrList b.distances []
    types := pyOrList (b.types.map EventType.value) []
    images := pyOrList b.images []
    start_date := pyOrStr b.start_date "1970-01-01"
    end_date := pyOrStr b.end_date (pyOrStr b.start_date "1970-01-01")
    circuit := pyOrList b.circuit []
    description := pyOrStr b.description ""
    description_short := b.description_short
    page := b.page
    slug := b.slug
    administrative_area_level_1 := b.administrative_area_level_1
    administrative_area_level_2 := b.administrative_area_level_2
    administrative_area_level_3 := b.administrative_area_level_3
    district_code := b.district_code }

/-! ## District codes (lines 38–96) -/

/-- `PORTUGAL_DISTRICT_CODES` (lines 38–64), in insertion order (Python
dicts preserve it, and the partial-match loop iterates in this order). -/
def PORTUGAL_DISTRICT_CODES : List (String × Int) :=
  [("Aveiro", 1), ("Beja", 2), ("Braga", 3), ("Bragança", 4),
   ("Castelo Branco", 5), ("Coimbra", 6), ("Évora", 7), ("Faro", 8),
   ("Guarda", 9), ("Leiria", 10), ("Lisboa", 11), ("Portalegre", 12),
   ("Porto", 13), ("Santarém", 14), ("Setúbal", 15),
   ("Viana do Castelo", 16), ("Vila Real", 17), ("Viseu", 18),
   ("Região Autónoma dos Açores", 20), ("Açores", 20), ("Azores", 20),
   ("Região Autónoma da Madeira", 30), ("Madeira", 30)]

/-- Python dict lookup `d.get(k)` on a string-keyed table. -/
def lookupAssoc (table : List (String × Int)) (k : String) : Option Int :=
  (table.find? (fun kv => kv.1 = k)).map (·.2)

/-- The `variations` dict local to `get_district_code` (lines 80–83). -/
def districtVariations : List (String × String) :=
  [("Região Autónoma da Madeira", "Madeira"),
   ("Região Autónoma dos Açores", "Açores")]

/-- The bidirectional case-insensitive substring test of the
partial-matching loop (lines 89–93). -/
def districtPartialMatch (normalized : String) (kv : String × Int) : Bool :=
  pyIn (pyLower kv.1) (pyLower normalized) || pyIn (pyLower normalized) (pyLower kv.1)

/-- `get_district_code` (lines 67–96). The `variations` branch indexes
`PORTUGAL_DISTRICT_CODES[...]` directly in Python (which cannot miss since
`"Madeira"` and `"Açores"` are table keys); the embedding uses the same
table lookup. -/
def get_district_code (district_name : Option String) : Option Int :=
  match district_name with
  | none => none
  | some dn =>
    if dn = "" then none
    else
      match lookupAssoc PORTUGAL_DISTRICT_CODES dn with
      | some code => some code
      | none =>
        let normalized := pyStrip dn
        match (districtVariations.find? (fun kv => kv.1 = normalized)).map (·.2) with
        | some real => lookupAssoc PORTUGAL_DISTRICT_CODES real
        | none =>
          match PORTUGAL_DISTRICT_CODES.find? (districtPartialMatch normalized) with
          | some kv => some kv.2
          | none => none

/-! ## Encoding repair (`WordPressClient._fix_encoding`, lines 829–877) -/

/-- Python `s.replace(p, b)`, fuel-indexed so that it computes by
structural recursion: scan left to right, replace each non-overlapping
occurrence of `p`, resume after the replaced occurrence.  Any
`fuel ≥ s.length` gives the replace semantics, since every step consumes
at least one character of `s` (the program only calls this with
non-empty `p`). -/
def replaceAllFuel (p b : List Char) : Nat → List Char → List Char
  | 0, s => s
  | _ + 1, [] => []
  | fuel + 1, c :: rest =>
    if p.isEmpty = false ∧ p.isPrefixOf (c :: rest) = true then
      b ++ replaceAllFuel p b fuel (List.drop (p.length - 1) rest)
    else
      c :: replaceAllFuel p b fuel rest

/-- Python `s.replace(p, b)` on character lists. -/
def replaceAll (p b s : List Char) : List Char := replaceAllFuel p b s.length s

/-- The `replacements` dict (lines 835–855), in insertion order.  The
seventh pattern is `Ã` followed by U+00AD (soft hyphen), and the 14th/15th
are `â` followed by U+009C / U+009D, exactly as in the source bytes; both
quote patterns map to the ASCII double quote. -/
def fixReplacements : List (String × String) :=
  [("Ã¡", "á"), ("Ã ", "à"), ("Ã¢", "â"), ("Ã£", "ã"),
   ("Ã©", "é"), ("Ãª", "ê"), ("Ã­", "í"), ("Ã³", "ó"),
   ("Ã´", "ô"), ("Ãµ", "õ"), ("Ãº", "ú"), ("Ã§", "ç"),
   ("Ã±", "ñ"),
   ("â\u009C", "\""), ("â\u009D", "\""),
   ("â\u0093", "–"), ("â\u0094", "—"), ("â¢", "•"), ("â¦", "…")]

/-- The `additional_fixes` dict (lines 862–871), in insertion order; each
entry is applied as written and then lowercased (lines 873–875). -/
def additionalFixes : List (String × String) :=
  [("C—mara", "Câmara"), ("Dist—ncias", "Distâncias"),
   ("Const—ncia", "Constância"), ("Gr—ndola", "Grândola"),
   ("ORGANIZAÇÇO", "ORGANIZAÇÃO"), ("SÇO", "SÃO"),
   ("EdiÃ§Ã£o", "Edição"), ("organizaÃ§Ã£o", "organização")]

/-- `_fix_encoding` (lines 829–877): sequential `str.replace` over
`replacements`, then over `additional_fixes` (each fix applied as written
and lowercased, via `str.lower` = `pyLowerChar`). -/
def fix_encoding (text : List Char) : List Char :=
  if text = [] then text
  else
    let r1 := fixReplacements.foldl
      (fun acc wc => replaceAll wc.1.toList wc.2.toList acc) text
    additionalFixes.foldl
      (fun acc wc =>
        replaceAll (wc.1.toList.map pyLowerChar) (wc.2.toList.map pyLowerChar)
          (replaceAll wc.1.toList wc.2.toList acc)) r1

/-- Every mis-decoded sequence known to `_fix_encoding`: the 19 patterns
of `replacements` plus the 8 of `additional_fixes` and their lowercase
forms.  A string containing none of these is "already correct". -/
def fixPatterns : List (List Char) :=
  fixReplacements.map (fun wc => wc.1.toList)
  ++ additionalFixes.map (fun wc => wc.1.toList)
  ++ additionalFixes.map (fun wc => wc.1.toList.map pyLowerChar)

/-! ## Errors

The Python exception kinds this program distinguishes at its component
boundaries. -/

inductive PyError where
  | httpError
  | ioError
  | timeout
  | generationError
  | formatError
deriving DecidableEq, Repr

/-! ## String scanning helpers (kernel-computable stand-ins for the
`str` methods used by the parsers) -/

/-- Python `s.split(sep)` for a one-character separator. -/
def pySplitChar (sep : Char) : List Char → List (List Char)
  | [] => [[]]
  | c :: rest =>
    match pySplitChar sep rest with
    | [] => [[]]
    | h :: t => if c = sep then [] :: h :: t else (c :: h) :: t

/-- Python `s.startswith(p)`. -/
def pyStartsWith (p s : String) : Bool := p.toList.isPrefixOf s.toList

/-- Python `s.replace(p, b)` on strings (all occurrences). -/
def pyReplace (s p b : String) : String :=
  String.mk (replaceAll p.toList b.toList s.toList)

/-- The numeric value of a run of ASCII digits. -/
def digitsToNat (ds : List Char) : Nat :=
  ds.foldl (fun n c => 10 * n + (c.toNat - 48)) 0

/-- Python `int(s)` for a stripped token: optional sign then ASCII
digits, `none` when `int()` would raise `ValueError` (underscore
separators and non-ASCII digits are not modelled; the inputs evaluated
here contain none). -/
def pyInt? (s : String) : Option Int :=
  match s.toList with
  | [] => none
  | '-' :: ds =>
    if ds ≠ [] ∧ ds.all Char.isDigit then some (-(digitsToNat ds : Int)) else none
  | '+' :: ds =>
    if ds ≠ [] ∧ ds.all Char.isDigit then some (digitsToNat ds : Int) else none
  | ds => if ds.all Char.isDigit then some (digitsToNat ds : Int) else none

/-- Python `sorted(list(set(l)))` for ints: ascending distinct values. -/
def sortedDedupInt (l : List Int) : List Int :=
  l.eraseDups.insertionSort (· ≤ ·)

/-! ## LLM client (`LLMClient`, lines 962–1137)

`_cached_llm_call` (lines 969–1010) takes the backend outcome as data:
`cache = some text` models a cache hit (`use_cache` true and the cache
file present), in which case the stripped cached text is returned and the
backend is not consulted; otherwise the subprocess outcome is used — its
stripped stdout on success, and on any error or timeout the exception is
logged and re-raised.  The system prompt, user prompt and model name only
select the cache key, so they are folded into the `cache` argument. -/

def cached_llm_call (cache : Option String) (backend : Except PyError String) :
    Except PyError String :=
  match cache with
  | some text => .ok (pyStrip text)
  | none =>
    match backend with
    | .ok stdout => .ok (pyStrip stdout)
    | .error e => .error e

/-- `generate_description` (lines 1012–1035): returns the cached/backend
text verbatim; errors propagate. -/
def generate_description (cache : Option String) (backend : Except PyError String) :
    Except PyError String :=
  cached_llm_call cache backend

/-- The output parser inside `infer_event_data` (lines 1100–1133):
exactly-two-line format, unknown type tokens and malformed or
out-of-range distances are warned about and skipped, distances are
deduplicated and sorted. -/
def parse_infer_output (output : String) : List EventType × List Int :=
  let lines := (pySplitChar '\n' output.toList).map String.mk
  let acc := lines.foldl
    (fun (acc : List EventType × List Int) line =>
      if pyStartsWith "event_types:" line then
        let types_str := pyStrip (pyReplace line "event_types:" "")
        if types_str ≠ "" then
          (((pySplitChar ',' types_str.toList).map String.mk).foldl
            (fun ts tok =>
              match EventType.fromValue? (pyStrip tok) with
              | some t => ts ++ [t]
              | none => ts)
            acc.1, acc.2)
        else acc
      else if pyStartsWith "distances:" line then
        let distances_str := pyStrip (pyReplace line "distances:" "")
        if distances_str ≠ "" then
          (acc.1, ((pySplitChar ',' distances_str.toList).map String.mk).foldl
            (fun ds tok =>
              match pyInt? (pyStrip tok) with
              | some d => if 100 ≤ d ∧ d ≤ 200000 then ds ++ [d] else ds
              | none => ds)
            acc.2)
        else acc
      else acc)
    ([], [])
  (acc.1, sortedDedupInt acc.2)

/-- `infer_event_data` (lines 1037–1137): parses the backend output; the
surrounding `try/except` turns *any* error from the call into the default
`([], [])` result instead of propagating it. -/
def infer_event_data (cache : Option String) (backend : Except PyError String) :
    Except PyError (List EventType × List Int) :=
  match cached_llm_call cache backend with
  | .error _ => .ok ([], [])
  | .ok output => .ok (parse_infer_output output)

/-! ## Tag classifier (`_enrich_from_class_list`, lines 1354–1484) -/

/-- Generic Python dict lookup `d.get(k)` on a string-keyed table. -/
def assocFind? {α : Type} (table : List (String × α)) (k : String) : Option α :=
  (table.find? (fun kv => kv.1 = k)).map (·.2)

/-- The `ignored_classes` set plus the `startswith` families
(lines 1358–1411). -/
def ignoredClasses : List String :=
  ["ajde_events", "type-ajde_events", "status-publish", "hentry",
   "event_type_2-guarda", "event_type_2-acores", "event_type_2-alemanha",
   "event_type_2-algarve-e-sul", "event_type_2-america",
   "event_type_2-aveiro", "event_type_2-beja", "event_type_2-braga",
   "event_type_2-braganca", "event_type_2-castelo-branco",
   "event_type_2-coimbra", "event_type_2-espanha", "event_type_2-europa",
   "event_type_2-evora", "event_type_2-faro", "event_type_2-italia",
   "event_type_2-leiria", "event_type_2-lisboa",
   "event_type_2-lisboa-e-centro", "event_type_2-madeira",
   "event_type_2-noruega", "event_type_2-paises-baixos",
   "event_type_2-portalegre", "event_type_2-porto",
   "event_type_2-porto-e-norte", "event_type_2-portugal",
   "event_type_2-reino-unido", "event_type_2-santarem",
   "event_type_2-setubal", "event_type_2-usa",
   "event_type_2-viana-do-castelo", "event_type_2-vila-real",
   "event_type_2-viseu", "event_type_3-sim", "event_type_4-solidarias-sim",
   "event_type_5-3-rios-trail-trophy", "event_type-corridas-inferior-10",
   "has-post-thumbnail"]

/-- `_ignored_class` (lines 1358–1411). -/
def ignored_class (wp_class : String) : Bool :=
  wp_class ∈ ignoredClasses
  || pyStartsWith "post-" wp_class
  || pyStartsWith "event_location-" wp_class
  || pyStartsWith "event_organizer-" wp_class

/-- `type_mapping` (lines 1413–1452). -/
def typeMapping : List (String × List EventType) :=
  [("event_type-caminhada", [.run]),
   ("event_type-trail", [.trail]),
   ("event_type-trail-curto", [.trail]),
   ("event_type-trail-longo", [.trail]),
   ("event_type_4-corrida", [.run]),
   ("event_type_4-caminhada", [.walk]),
   ("event_type_4-trail", [.trail]),
   ("event_type_4-sao-silvestre", [.saintSilvester]),
   ("event_type_4-cross", [.crossCountry]),
   ("event_type_4-maratona", [.marathon]),
   ("event_type_4-meia-maratona", [.halfMarathon]),
   ("event_type_4-10km", [.tenK]),
   ("event_type_4-5km", [.fiveK]),
   ("event_type_4-estafetas", [.relay]),
   ("event_type_4-kids", [.kids]),
   ("event_type-corrida", [.run]),
   ("event_type-corrida-10-km", [.tenK]),
   ("event_type-corrida-de-15-km", [.fifteenK]),
   ("event_type-backyard", [.crossCountry]),
   ("event_type-canicross", [.crossCountry]),
   ("event_type-corta-mato", [.crossCountry]),
   ("event_type-estafetas", [.relay]),
   ("event_type-etapas", []),
   ("event_type-kids", [.kids]),
   ("event_type-kids-trail", [.kids, .trail]),
   ("event_type-legua", [.fiveK]),
   ("event_type-maratona", [.marathon]),
   ("event_type-meiamaratona", [.halfMarathon]),
   ("event_type-milha", [.mile]),
   ("event_type-obstaculos", []),
   ("event_type-outras", []),
   ("event_type-pista", []),
   ("event_type-running-tours", []),
   ("event_type-sao-silvestre", [.saintSilvester]),
   ("event_type-skyrunning", []),
   ("event_type-t-estafeta", [.relay]),
   ("event_type-trail-endurance", [.trail]),
   ("event_type-trail-ultra", [.trail])]

/-- `circuit_mapping` (lines 1454–1464). -/
def circuitMapping : List (String × String) :=
  [("event_type_5-circuito-4-estacoes", "4 Estacoes"),
   ("event_type_5-circuito-atrp", "ATRP"),
   ("event_type_5-circuito-de-atletismo-do-barreiro", "Atletismo do Barreiro"),
   ("event_type_5-circuito-estrelas-de-portugal", "Estrelas de Portugal"),
   ("event_type_5-circuito-trail-madeira", "Trail Madeira"),
   ("event_type_5-majors", "Majors"),
   ("event_type_5-superhalfs", "SuperHalfs"),
   ("event_type_5-trofeu-atletismo-de-almada", "Atletismo de Almada"),
   ("event_type_5-trofeu-de-almada", "Trofeu de Almada")]

/-- `_enrich_from_class_list` (lines 1354–1484): classify each tag —
ignored tags are skipped, unrecognized tags produce a warning (collected
in the second component, modelling `logger.warning`) and are skipped,
mapped tags push their canonical types / circuit label into the builder.
The third component is the function's Python return value `event_types`,
a local accumulator that the source never appends to (it stays `[]`); the
guard `t ∉ event_types` is embedded as written. -/
def enrich_from_class_list (builder : EventBuilder) (class_list : List String) :
    EventBuilder × List String × List EventType :=
  class_list.foldl
    (fun (st : EventBuilder × List String × List EventType) wp_class =>
      if ignored_class wp_class then st
      else if (assocFind? typeMapping wp_class).isNone
          ∧ (assocFind? circuitMapping wp_class).isNone then
        (st.1, st.2.1 ++ [wp_class], st.2.2)
      else
        let afterTypes : EventBuilder × List EventType :=
          match assocFind? typeMapping wp_class with
          | some mapped =>
            mapped.foldl
              (fun (p : EventBuilder × List EventType) t =>
                if t ∉ p.2 then (p.1.add_event_type t, p.2) else p)
              (st.1, st.2.2)
          | none => (st.1, st.2.2)
        match assocFind? circuitMapping wp_class with
        | some c => (afterTypes.1.add_circuit c, st.2.1, afterTypes.2)
        | none => (afterTypes.1, st.2.1, afterTypes.2))
    (builder, [], [])

/-! ## Cache reads (`cache_read`, lines 475–486)

The file system is a map from paths to file states; a `corrupt` entry
exists but raises `IOError` when opened (the situation the function's
`except IOError` branch handles). -/

/-- Raw file content. -/
def Bytes : Type := List Nat

/-- State of one cache path on disk. -/
inductive FileState where
  | absent
  | readable (content : Bytes)
  | corrupt

/-- The file system as seen by `cache_read`. -/
structure FileSystem where
  files : String → FileState

/-- `cache_path.exists()`. -/
def pathExists (fs : FileSystem) (p : String) : Bool :=
  match fs.files p with
  | .absent => false
  | _ => true

/-- Opening and reading the file (`aiofiles.open` + `read`): raises
`IOError` on a corrupt entry. -/
def rawRead (fs : FileSystem) (p : String) : Except PyError Bytes :=
  match fs.files p with
  | .readable c => .ok c
  | _ => .error .ioError

/-- `cache_path.unlink(missing_ok=True)`. -/
def unlink (fs : FileSystem) (p : String) : FileSystem :=
  ⟨fun q => if q = p then .absent else fs.files q⟩

/-- `cache_read` (lines 475–486): absent → `None`; readable → content;
`IOError` while reading → warn, delete the entry, `None`.  The function
is total: no error escapes to the caller. -/
def cache_read (fs : FileSystem) (p : String) : Option Bytes × FileSystem :=
  if pathExists fs p = false then (none, fs)
  else
    match rawRead fs p with
    | .ok c => (some c, fs)
    | .error _ => (none, unlink fs p)

/-! ## Aggregation (`sort_events_by_date` lines 1181–1189,
`_generate_aggregate_files` lines 1224–1346) -/

/-- Code-point lexicographic comparison on character lists — Python's
`s₁ <= s₂` on strings, kernel-computable. -/
def strLeB : List Char → List Char → Bool
  | [], _ => true
  | _ :: _, [] => false
  | a :: as, b :: bs => if a < b then true else if b < a then false else strLeB as bs

/-- Python `s₁ <= s₂` on strings. -/
def pyStrLe (s₁ s₂ : String) : Bool := strLeB s₁.data s₂.data

/-- The JSON dict written for one event (`Event.to_dict`).  The
aggregator reads only `start_date` and `district_code` (via `.get`, so
they are `Option`-typed as arbitrary dicts would be); `body` carries the
full record, as `asdict` serializes every field. -/
structure EventJson where
  id : Int
  start_date : Option String
  district_code : Option Int
  body : Event
deriving DecidableEq, Repr

/-- `Event.to_dict` (lines 243–247): every `Event` has a string
`start_date`, so the dict's entry is always present. -/
def Event.to_dict (e : Event) : EventJson :=
  ⟨e.id, some e.start_date, e.district_code, e⟩

/-- The sort key of `sort_events_by_date` (lines 1183–1189):
`(start_date is None, start_date or "9999-12-31")`. -/
def sortKey (e : EventJson) : Bool × String :=
  (e.start_date.isNone, pyOrStr e.start_date "9999-12-31")

/-- Python's lexicographic comparison of two sort keys (`False < True`
on booleans), as a computable Boolean. -/
def eventLeB (a b : EventJson) : Bool :=
  if (sortKey a).1 = (sortKey b).1 then pyStrLe (sortKey a).2 (sortKey b).2
  else (sortKey a).1 = false

/-- Python's lexicographic comparison of two sort keys, as a
proposition over the standard string order. -/
def SortKeyLe (a b : EventJson) : Prop :=
  ((sortKey a).1 = false ∧ (sortKey b).1 = true)
  ∨ ((sortKey a).1 = (sortKey b).1 ∧ (sortKey a).2 ≤ (sortKey b).2)

/-- `sort_events_by_date` (lines 1181–1189): stable ascending sort by
`sortKey` (Python's `sorted`; modelled by stable insertion sort, which
produces the same list). -/
def sort_events_by_date (events : List EventJson) : List EventJson :=
  events.insertionSort (fun a b => eventLeB a b = true)

/-- The filter of the `upcoming.json` generation (lines 1296–1301):
`start_date and isinstance(start_date, str) and start_date >= today`. -/
def upcomingPred (today : String) (e : EventJson) : Bool :=
  match e.start_date with
  | some s => s ≠ "" && pyStrLe today s
  | none => false

/-- Contents of `events.json` (lines 1230–1241): all events, sorted. -/
def events_json (events : List EventJson) : List EventJson :=
  sort_events_by_date events

/-- Contents of `upcoming.json` (lines 1296–1313): the events whose
`start_date` compares on-or-after `today`, sorted. -/
def upcoming_json (today : String) (events : List EventJson) : List EventJson :=
  sort_events_by_date (events.filter (upcomingPred today))

/-! ## Geocoding (`GoogleGeocodingClient`, lines 880–959)

The HTTP fetch plus JSON decode of the Google response is passed in as an
`Except`: any network failure, bad status, malformed JSON or missing key
is an exception inside the `try` of `geocode` and is represented by
`.error`. -/

/-- One entry of `address_components`. -/
structure AddressComponent where
  long_name : String
  types : List String
deriving DecidableEq, Repr

/-- One entry of `results` (the fields `_parse_google_response` reads). -/
structure GoogleResult where
  lat : Rat
  lon : Rat
  address_components : List AddressComponent
deriving DecidableEq, Repr

/-- The decoded geocoding response. -/
structure GoogleResponse where
  results : List GoogleResult
deriving DecidableEq, Repr

/-- The `location_data` accumulator of `_parse_google_response`. -/
structure GeoAccum where
  country : String
  locality : String
  a1 : Option String
  a2 : Option String
  a3 : Option String

/-- `_parse_google_response` (lines 891–935): seed the defaults, then for
each address component overwrite country / admin levels (level 1 also
replaces the locality), and derive the district code from level 1. -/
def parse_google_response (location : String) (r : GoogleResult) : EventLocation :=
  let init : GeoAccum :=
    { country := "Portugal"
      locality := pyStrip (String.mk ((pySplitChar ',' location.toList).headD []))
      a1 := none, a2 := none, a3 := none }
  let st := r.address_components.foldl
    (fun st comp =>
      if "country" ∈ comp.types then { st with country := comp.long_name }
      else if "administrative_area_level_1" ∈ comp.types then
        { st with a1 := some comp.long_name, locality := comp.long_name }
      else if "administrative_area_level_2" ∈ comp.types then
        { st with a2 := some comp.long_name }
      else if "administrative_area_level_3" ∈ comp.types then
        { st with a3 := some comp.long_name }
      else st)
    init
  { name := location
    country := st.country
    locality := st.locality
    coordinates := some ⟨r.lat, r.lon⟩
    administrative_area_level_1 := st.a1
    administrative_area_level_2 := st.a2
    administrative_area_level_3 := st.a3
    district_code := get_district_code st.a1 }

/-- `geocode` (lines 937–959): the whole body is wrapped in
`try/except Exception: return None`, so a failed fetch, an empty result
list (`results[0]` raising `IndexError`), or any parse failure yields
`none` — never an exception. -/
def geocode (location : String) (fetch : Except PyError GoogleResponse) :
    Option EventLocation :=
  match fetch with
  | .error _ => none
  | .ok data =>
    match data.results with
    | [] => none
    | r :: _ => some (parse_google_response location r)

/-! ## Distance extraction (`_enrich_extract_distances_from_text`,
lines 1487–1517)

The six regex patterns are `(\d+)\s*km`, `(\d+)\s*k\b`, `(\d+)\s*metros`,
`(\d+)\s*m\b`, `(\d+),(\d+)\s*km`, `(\d+)\.(\d+)\s*km` over the
lowercased text.  Since the digit, whitespace, and literal alphabets are
disjoint, the greedy no-backtracking scan below coincides with the regex
engine.  `\b` after `k`/`m` requires the next character to not be a word
character (ASCII alphanumerics, `_`, and Latin-1 letters — the repertoire
relevant to this text).  `int(value * multiplier)` is computed exactly
over the naturals (Python's binary floats can differ by one on some
decimal inputs; none of the inputs evaluated here are affected). -/

/-- Word character for the `\b` boundary. -/
def pyIsWordChar (c : Char) : Bool :=
  c.isAlphanum || c = '_'
  || (0xC0 ≤ c.toNat && c.toNat ≤ 0xFF && c ≠ '×' && c ≠ '÷')

/-- Try pattern `(\d+)\s*LIT(\b)?` at the head of `s`; on success return
the digit group's value and the rest after the match. -/
def matchSimple (lit : List Char) (boundary : Bool) (s : List Char) :
    Option (Nat × List Char) :=
  let ds := s.takeWhile Char.isDigit
  if ds = [] then none
  else
    let r1 := (s.dropWhile Char.isDigit).dropWhile pyIsSpace
    if lit.isPrefixOf r1 then
      let r2 := r1.drop lit.length
      if boundary then
        match r2 with
        | [] => some (digitsToNat ds, r2)
        | c :: _ => if pyIsWordChar c then none else some (digitsToNat ds, r2)
      else some (digitsToNat ds, r2)
    else none

/-- `int(value * 1000)` for the decimal value `d1.d2` (with `k` digits
after the point), computed exactly. -/
def decimalDistance (d1 d2 k : Nat) : Nat :=
  (d1 * 10 ^ k + d2) * 1000 / 10 ^ k

/-- Try pattern `(\d+)SEP(\d+)\s*km` at the head of `s`. -/
def matchDecimal (sep : Char) (s : List Char) : Option (Nat × List Char) :=
  let ds1 := s.takeWhile Char.isDigit
  if ds1 = [] then none
  else
    match s.dropWhile Char.isDigit with
    | [] => none
    | c :: rest =>
      if c = sep then
        let ds2 := rest.takeWhile Char.isDigit
        if ds2 = [] then none
        else
          let r1 := (rest.dropWhile Char.isDigit).dropWhile pyIsSpace
          if ['k', 'm'].isPrefixOf r1 then
            some (decimalDistance (digitsToNat ds1) (digitsToNat ds2) ds2.length,
              r1.drop 2)
          else none
      else none

/-- `re.finditer` for a simple pattern: successive non-overlapping
matches, scanning left to right (fuel = remaining length). -/
def finditerSimple (lit : List Char) (boundary : Bool) : Nat → List Char → List Nat
  | 0, _ => []
  | _ + 1, [] => []
  | fuel + 1, c :: rest =>
    match matchSimple lit boundary (c :: rest) with
    | some (v, r) => v :: finditerSimple lit boundary fuel r
    | none => finditerSimple lit boundary fuel rest

/-- `re.finditer` for a decimal pattern. -/
def finditerDecimal (sep : Char) : Nat → List Char → List Nat
  | 0, _ => []
  | _ + 1, [] => []
  | fuel + 1, c :: rest =>
    match matchDecimal sep (c :: rest) with
    | some (v, r) => v :: finditerDecimal sep fuel r
    | none => finditerDecimal sep fuel rest

/-- `_enrich_extract_distances_from_text` (lines 1487–1517): collect the
matches of all six patterns over the lowercased text, keep the 100 m –
200 km range, deduplicate and sort. -/
def enrich_extract_distances_from_text (text : String) : List Int :=
  if text = "" then []
  else
    let tl := text.toList.map pyLowerChar
    let n := tl.length
    let vals :=
      (finditerSimple ['k', 'm'] false n tl).map (· * 1000)
      ++ (finditerSimple ['k'] true n tl).map (· * 1000)
      ++ finditerSimple ['m', 'e', 't', 'r', 'o', 's'] false n tl
      ++ finditerSimple ['m'] true n tl
      ++ finditerDecimal ',' n tl
      ++ finditerDecimal '.' n tl
    sortedDedupInt ((vals.filter (fun d => 100 ≤ d ∧ d ≤ 200000)).map
      (fun n => (n : Int)))

/-! ## Per-listing enrichment pipeline (lines 1520–1657 and
`scrape_event`, lines 1747–1781)

`ListingWorld` packages the outcome of every external interaction one
listing's pipeline performs: the WordPress detail fetch, the ICS fetch
and parse (an invalid ICS raises inside `fetch_event_ics`, hence
`Except`), the image download, the event-page fetch combined with its
regex search (`.ok none` = page fetched but no match), the LLM cache and
backend outcomes for the two calls, and the geocoding fetch. -/

structure ListingWorld where
  details : Except PyError WEvent
  ics : Except PyError WIcs
  imageFetch : Except PyError Unit
  imagePath : String
  linkPage : Except PyError (Option String)
  descCache : Option String
  descBackend : Except PyError String
  inferCache : Option String
  inferBackend : Except PyError String
  geo : Except PyError GoogleResponse

/-- `enrich_from_event_details` (lines 1520–1550): tags, title,
description, slug, featured image; a failed image download is caught and
skipped. -/
def enrich_from_event_details (b : EventBuilder) (details : WEvent)
    (imageFetch : Except PyError Unit) (imagePath : String) : EventBuilder :=
  let b := (enrich_from_class_list b details.class_list).1
  let b := if details.title ≠ "" then b.set_name details.title false else b
  let b := match details.content with
    | some content => b.set_description content false
    | none => b
  let b := if details.slug ≠ "" then b.set_slug details.slug false else b
  match details.featured_image_src with
  | some src =>
    if src ≠ "" then
      match imageFetch with
      | .ok _ => b.add_image imagePath
      | .error _ => b
    else b
  | none => b

/-- `enrich_event_link` (lines 1553–1581): fetch the linked page and look
for the event-page anchor; fetch errors are caught, a missing match only
warns. -/
def enrich_event_link (b : EventBuilder) (link : Option String)
    (linkPage : Except PyError (Option String)) : EventBuilder :=
  match link with
  | none => b
  | some l =>
    if l = "" then b
    else
      match linkPage with
      | .error _ => b
      | .ok none => b
      | .ok (some url) => b.set_event_page url false

/-- `enrich_from_event_ics` (lines 1584–1596). -/
def enrich_from_event_ics (b : EventBuilder) (ics : WIcs) : EventBuilder :=
  let b := match ics.location with
    | some loc => (b.set_location loc false).set_locality loc false
    | none => b
  let b := match ics.start_date with
    | some d => b.set_start_date d false
    | none => b
  let b := match ics.end_date with
    | some d => b.set_end_date d false
    | none => b
  match ics.description with
  | some d => if pyStrip d ≠ "" then b.set_description d false else b
  | none => b

/-- `enrich_from_llm` (lines 1599–1614): skipped entirely when the
builder has no description; a `generate_description` failure propagates
(no `try` here), while `infer_event_data` cannot fail (C4).  The prompts
built from the builder's name/description only select the cache key and
backend response, which the `ListingWorld` supplies. -/
def enrich_from_llm (b : EventBuilder) (descCache : Option String)
    (descBackend : Except PyError String) (inferCache : Option String)
    (inferBackend : Except PyError String) : Except PyError EventBuilder :=
  match b.description with
  | none => .ok b
  | some _ =>
    match generate_description descCache descBackend with
    | .error e => .error e
    | .ok short =>
      let b := b.set_description_short short false
      match infer_event_data inferCache inferBackend with
      | .error e => .error e
      | .ok (ts, ds) =>
        let b := ts.foldl (fun b t => b.add_event_type t) b
        .ok (ds.foldl (fun b d => b.add_distance d) b)

/-- `encrich_from_google_maps` (lines 1617–1642, source spelling):
geocoding failure only warns and leaves the builder untouched; a result
overwrites location/locality/coordinates/country and fills the admin
levels and district code if truthy. -/
def encrich_from_google_maps (b : EventBuilder)
    (geoFetch : Except PyError GoogleResponse) : EventBuilder :=
  match b.location with
  | none => b
  | some loc =>
    match geocode loc geoFetch with
    | none => b
    | some location =>
      let b := b.set_location location.name true
      let b := b.set_locality location.locality true
      let b := match location.coordinates with
        | some c => b.set_coordinates c true
        | none => b
      let b := b.set_country location.country true
      let b := match location.administrative_area_level_1 with
        | some a => if a ≠ "" then b.set_administrative_area_level_1 a false else b
        | none => b
      let b := match location.administrative_area_level_2 with
        | some a => if a ≠ "" then b.set_administrative_area_level_2 a false else b
        | none => b
      let b := match location.administrative_area_level_3 with
        | some a => if a ≠ "" then b.set_administrative_area_level_3 a false else b
        | none => b
      match location.district_code with
      | some c => if c ≠ 0 then b.set_district_code c false else b
      | none => b

/-- `enrich_distances_from_description` (lines 1645–1649). -/
def enrich_distances_from_description (b : EventBuilder) : EventBuilder :=
  match b.description with
  | none => b
  | some d =>
    (enrich_extract_distances_from_text d).foldl
      (fun acc dist => acc.add_distance dist) b

/-- `enrich_distances_from_types` (lines 1652–1657). -/
def enrich_distances_from_types (b : EventBuilder) : EventBuilder :=
  b.types.foldl
    (fun acc t =>
      match (EVENT_TYPE_DISTANCES.find? (fun kv => kv.1 = t)).map (·.2) with
      | some d => acc.add_distance d
      | none => acc)
    b

/-- `scrape_event` (lines 1747–1781): fetch details and ICS (either
failure aborts this listing), then run the enrichment steps in order;
only `enrich_from_llm` can abort after that, and `build` is reached
otherwise. -/
def scrape_event (event_id : Int) (w : ListingWorld) : Except PyError Event :=
  match w.details with
  | .error e => .error e
  | .ok details =>
    match w.ics with
    | .error e => .error e
    | .ok ics =>
      let b := EventBuilder.init event_id
      let b := enrich_from_event_details b details w.imageFetch w.imagePath
      let b := enrich_event_link b (some details.link) w.linkPage
      let b := enrich_from_event_ics b ics
      match enrich_from_llm b w.descCache w.descBackend w.inferCache w.inferBackend with
      | .error e => .error e
      | .ok b =>
        let b := encrich_from_google_maps b w.geo
        let b := enrich_distances_from_description b
        let b := enrich_distances_from_types b
        .ok b.build

/-- The batch collection step of `cmd_scrape` (lines 1849–1861):
`asyncio.gather(..., return_exceptions=True)` keeps one result slot per
id in order; results that are exceptions are logged and skipped, the
rest are collected. -/
def processBatch (ids : List Int) (world : Int → ListingWorld) : List Event :=
  (ids.map (fun i => scrape_event i (world i))).filterMap Except.toOption

/-- The `events.json` produced by a run of `cmd_scrape` over one batch:
the successful events' dicts, sorted by start date (lines 1876–1880 and
`_generate_aggregate_files`). -/
def scrape_events_json (ids : List Int) (world : Int → ListingWorld) : List EventJson :=
  events_json ((processBatch ids world).map Event.to_dict)

/-! ## Concrete batch scenarios for claim C3 -/

/-- A listing whose every external interaction succeeds. -/
def okWorld (i : Int) : ListingWorld :=
  { details := .ok
      { id := i, date := "2024-01-01", link := "", slug := "ev",
        title := "Evento", class_list := ["event_type_4-corrida"],
        content := some "Corrida na cidade", featured_media := none,
        featured_image_src := none }
    ics := .ok
      { location := some "Lisboa", start_date := some "2024-03-15",
        end_date := none, description := none, summary := none }
    imageFetch := .ok ()
    imagePath := ""
    linkPage := .ok none
    descCache := some "Corrida curta"
    descBackend := .ok "Corrida curta"
    inferCache := some "event_types: \ndistances: "
    inferBackend := .ok "event_types: \ndistances: "
    geo := .ok ⟨[]⟩ }

/-- Same listing, but the geocoding HTTP call raises. -/
def geoFailWorld (i : Int) : ListingWorld :=
  { okWorld i with geo := .error .httpError }

/-- Same listing, but the detail fetch raises (a failure that does
propagate out of `scrape_event`). -/
def detailsFailWorld (i : Int) : ListingWorld :=
  { okWorld i with details := .error .httpError }

/-- A batch of ten listing ids. -/
def c3Ids : List Int := [1, 2, 3, 4, 5, 6, 7, 8, 9, 10]

/-- Ten listings, the geocoder raising for id 5 only. -/
def c3WorldGeoFail : Int → ListingWorld :=
  fun i => if i = 5 then geoFailWorld i else okWorld i

/-- Ten listings, the detail fetch raising for id 5 only. -/
def c3WorldDetailsFail : Int → ListingWorld :=
  fun i => if i = 5 then detailsFailWorld i else okWorld i

/-! ## Builder operation sequences (for the C2 invariant)

An arbitrary interleaving of the public mutating methods of
`EventBuilder`. -/

inductive BuilderOp where
  | add_event_type (t : EventType)
  | set_name (v : String) (overwrite : Bool)
  | set_location (v : String) (overwrite : Bool)
  | set_coordinates (v : Coordinates) (overwrite : Bool)
  | set_country (v : String) (overwrite : Bool)
  | set_locality (v : String) (overwrite : Bool)
  | set_administrative_area_level_1 (v : String) (overwrite : Bool)
  | set_administrative_area_level_2 (v : String) (overwrite : Bool)
  | set_administrative_area_level_3 (v : String) (overwrite : Bool)
  | set_district_code (v : Int) (overwrite : Bool)
  | add_distance (d : Int)
  | add_image (url : String)
  | set_start_date (v : String) (overwrite : Bool)
  | set_end_date (v : String) (overwrite : Bool)
  | add_circuit (c : String)
  | set_description (v : String) (overwrite : Bool)
  | set_description_short (v : String) (overwrite : Bool)
  | set_event_page (v : String) (overwrite : Bool)
  | set_slug (v : String) (overwrite : Bool)
deriving DecidableEq, Repr

/-- Run one builder method. -/
def BuilderOp.apply (b : EventBuilder) : BuilderOp → EventBuilder
  | .add_event_type t => b.add_event_type t
  | .set_name v ow => b.set_name v ow
  | .set_location v ow => b.set_location v ow
  | .set_coordinates v ow => b.set_coordinates v ow
  | .set_country v ow => b.set_country v ow
  | .set_locality v ow => b.set_locality v ow
  | .set_administrative_area_level_1 v ow => b.set_administrative_area_level_1 v ow
  | .set_administrative_area_level_2 v ow => b.set_administrative_area_level_2 v ow
  | .set_administrative_area_level_3 v ow => b.set_administrative_area_level_3 v ow
  | .set_district_code v ow => b.set_district_code v ow
  | .add_distance d => b.add_distance d
  | .add_image url => b.add_image url
  | .set_start_date v ow => b.set_start_date v ow
  | .set_end_date v ow => b.set_end_date v ow
  | .add_circuit c => b.add_circuit c
  | .set_description v ow => b.set_description v ow
  | .set_description_short v ow => b.set_description_short v ow
  | .set_event_page v ow => b.set_event_page v ow
  | .set_slug v ow => b.set_slug v ow

/-- Run a sequence of builder methods. -/
def applyOps (b : EventBuilder) (ops : List BuilderOp) : EventBuilder :=
  ops.foldl BuilderOp.apply b

/-! ## Claim C1: setter discipline -/

/-- **C1.** For every `EventBuilder` field setter, calling the setter when
the field already holds a value and `overwrite` is `false` leaves the field
unchanged (first write wins); calling it with `overwrite = true` replaces
the value; calling it on an unset field assigns it.  In particular
`set_location "A"` then `set_location "B"` leaves the location `"A"`,
while `set_location "A"` then `set_location "B" (overwrite := true)`
leaves it `"B"`. -/
theorem C1_setter_first_write_wins :
    (∀ (b : EventBuilder) (v w : String), b.name = some w →
      (b.set_name v false).name = some w)
    ∧ (∀ (b : EventBuilder) (v : String), (b.set_name v true).name = some v)
    ∧ (∀ (b : EventBuilder) (v : String), b.name = none →
      (b.set_name v false).name = some v)
    ∧ (∀ (b : EventBuilder) (v w : String), b.location = some w →
      (b.set_location v false).location = some w)
    ∧ (∀ (b : EventBuilder) (v : String), (b.set_location v true).location = some v)
    ∧ (∀ (b : EventBuilder) (v : String), b.location = none →
      (b.set_location v false).location = some v)
    ∧ (∀ (b : EventBuilder) (v w : Coordinates), b.coordinates = some w →
      (b.set_coordinates v false).coordinates = some w)
    ∧ (∀ (b : EventBuilder) (v : Coordinates), (b.set_coordinates v true).coordinates = some v)
    ∧ (∀ (b : EventBuilder) (v : Coordinates), b.coordinates = none →
      (b.set_coordinates v false).coordinates = some v)
    ∧ (∀ (b : EventBuilder) (v w : String), b.country = some w →
      (b.set_country v false).country = some w)
    ∧ (∀ (b : EventBuilder) (v : String), (b.set_country v true).country = some v)
    ∧ (∀ (b : EventBuilder) (v : String), b.country = none →
      (b.set_country v false).country = some v)
    ∧ (∀ (b : EventBuilder) (v w : String), b.locality = some w →
      (b.set_locality v false).locality = some w)
    ∧ (∀ (b : EventBuilder) (v : String), (b.set_locality v true).locality = some v)
    ∧ (∀ (b : EventBuilder) (v w : String), b.administrative_area_level_1 = some w →
      (b.set_administrative_area_level_1 v false).administrative_area_level_1 = some w)
    ∧ (∀ (b : EventBuilder) (v : String),
      (b.set_administrative_area_level_1 v true).administrative_area_level_1 = some v)
    ∧ (∀ (b : EventBuilder) (v w : String), b.administrative_area_level_2 = some w →
      (b.set_administrative_area_level_2 v false).administrative_area_level_2 = some w)
    ∧ (∀ (b : EventBuilder) (v : String),
      (b.set_administrative_area_level_2 v true).administrative_area_level_2 = some v)
    ∧ (∀ (b : EventBuilder) (v w : String), b.administrative_area_level_3 = some w →
      (b.set_administrative_area_level_3 v false).administrative_area_level_3 = some w)
    ∧ (∀ (b : EventBuilder) (v : String),
      (b.set_administrative_area_level_3 v true).administrative_area_level_3 = some v)
    ∧ (∀ (b : EventBuilder) (v : Int) (w : Int), b.district_code = some w →
      (b.set_district_code v false).district_code = some w)
    ∧ (∀ (b : EventBuilder) (v : Int), (b.set_district_code v true).district_code = some v)
    ∧ (∀ (b : EventBuilder) (v w : String), b.start_date = some w →
      (b.set_start_date v false).start_date = some w)
    ∧ (∀ (b : EventBuilder) (v : String), (b.set_start_date v true).start_date = some v)
    ∧ (∀ (b : EventBuilder) (v w : String), b.end_date = some w →
      (b.set_end_date v false).end_date = some w)
    ∧ (∀ (b : EventBuilder) (v : String), (b.set_end_date v true).end_date = some v)
    ∧ (∀ (b : EventBuilder) (v w : String), b.description = some w →
      (b.set_description v false).description = some w)
    ∧ (∀ (b : EventBuilder) (v : String), (b.set_description v true).description = some v)
    ∧ (∀ (b : EventBuilder) (v w : String), b.description_short = some w →
      (b.set_description_short v false).description_short = some w)
    ∧ (∀ (b : EventBuilder) (v : String),
      (b.set_description_short v true).description_short = some v)
    ∧ (∀ (b : EventBuilder) (v w : String), b.page = some w →
      (b.set_event_page v false).page = some w)
    ∧ (∀ (b : EventBuilder) (v : String), (b.set_event_page v true).page = some v)
    ∧ (∀ (b : EventBuilder) (v w : String), b.slug = some w →
      (b.set_slug v false).slug = some w)
    ∧ (∀ (b : EventBuilder) (v : String), (b.set_slug v true).slug = some v)
    ∧ (((EventBuilder.init 1).set_location "A" false).set_location "B" false).location = some "A"
    ∧ (((EventBuilder.init 1).set_location "A" false).set_location "B" true).location = some "B" :=
  ⟨fun b v w h => by simp [EventBuilder.set_name, h],
   fun b v => by simp [EventBuilder.set_name],
   fun b v h => by simp [EventBuilder.set_name, h],
   fun b v w h => by simp [EventBuilder.set_location, h],
   fun b v => by simp [EventBuilder.set_location],
   fun b v h => by simp [EventBuilder.set_location, h],
   fun b v w h => by simp [EventBuilder.set_coordinates, h],
   fun b v => by simp [EventBuilder.set_coordinates],
   fun b v h => by simp [EventBuilder.set_coordinates, h],
   fun b v w h => by simp [EventBuilder.set_country, h],
   fun b v => by simp [EventBuilder.set_country],
   fun b v h => by simp [EventBuilder.set_country, h],
   fun b v w h => by simp [EventBuilder.set_locality, h],
   fun b v => by simp [EventBuilder.set_locality],
   fun b v w h => by simp [EventBuilder.set_administrative_area_level_1, h],
   fun b v => by simp [EventBuilder.set_administrative_area_level_1],
   fun b v w h => by simp [EventBuilder.set_administrative_area_level_2, h],
   fun b v => by simp [EventBuilder.set_administrative_area_level_2],
   fun b v w h => by simp [EventBuilder.set_administrative_area_level_3, h],
   fun b v => by simp [EventBuilder.set_administrative_area_level_3],
   fun b v w h => by simp [EventBuilder.set_district_code, h],
   fun b v => by simp [EventBuilder.set_district_code],
   fun b v w h => by simp [EventBuilder.set_start_date, h],
   fun b v => by simp [EventBuilder.set_start_date],
   fun b v w h => by simp [EventBuilder.set_end_date, h],
   fun b v => by simp [EventBuilder.set_end_date],
   fun b v w h => by simp [EventBuilder.set_description, h],
   fun b v => by simp [EventBuilder.set_description],
   fun b v w h => by simp [EventBuilder.set_description_short, h],
   fun b v => by simp [EventBuilder.set_description_short],
   fun b v w h => by simp [EventBuilder.set_event_page, h],
   fun b v => by simp [EventBuilder.set_event_page],
   fun b v w h => by simp [EventBuilder.set_slug, h],
   fun b v => by simp [EventBuilder.set_slug],
   by decide, by decide⟩

/-- Witness for C1: instantiating the first-write-wins part at a concrete
builder whose location is already `"A"` and discharging its hypothesis. -/
theorem C1_setter_first_write_wins_witness :
    (((EventBuilder.init 1).set_location "A" false).set_location "B" false).location
      = some "A" :=
  C1_setter_first_write_wins.2.2.2.1
    ((EventBuilder.init 1).set_location "A" false) "B" "A" (by decide)

/-! ## Claim C2: list invariants of `build` -/

/-- Invariant maintained by every builder method: `distances` is kept
ascending and duplicate-free, `types` duplicate-free. -/
def BuilderInv (b : EventBuilder) : Prop :=
  b.distances.Sorted (· ≤ ·) ∧ b.distances.Nodup ∧ b.types.Nodup

theorem builderInv_init (i : Int) : BuilderInv (EventBuilder.init i) := by
  constructor
  · exact List.sorted_nil
  · exact ⟨List.nodup_nil, List.nodup_nil⟩

theorem builderInv_add_distance {b : EventBuilder} (d : Int) (h : BuilderInv b) :
    BuilderInv (b.add_distance d) := by
  obtain ⟨hs, hnd, hnt⟩ := h
  unfold EventBuilder.add_distance
  by_cases hd : d ∈ b.distances
  · simp [hd, BuilderInv, hs, hnd, hnt]
  · simp only [hd, not_false_eq_true, if_pos, if_true]
    refine ⟨?_, ?_, hnt⟩
    · exact List.sorted_insertionSort (· ≤ ·) (b.distances ++ [d])
    · have hperm : List.Perm ((b.distances ++ [d]).insertionSort (· ≤ ·))
          (b.distances ++ [d]) := List.perm_insertionSort _ _
      refine hperm.nodup_iff.mpr ?_
      have hps : List.Perm (b.distances ++ [d]) (d :: b.distances) :=
        List.perm_append_singleton d _
      exact hps.nodup_iff.mpr (List.nodup_cons.mpr ⟨hd, hnd⟩)

theorem builderInv_add_event_type {b : EventBuilder} (t : EventType) (h : BuilderInv b) :
    BuilderInv (b.add_event_type t) := by
  obtain ⟨hs, hnd, hnt⟩ := h
  unfold EventBuilder.add_event_type
  by_cases ht : t ∈ b.types
  · simp [ht, BuilderInv, hs, hnd, hnt]
  · simp only [ht, not_false_eq_true, if_neg, if_false]
    refine ⟨hs, hnd, ?_⟩
    have hps : List.Perm (b.types ++ [t]) (t :: b.types) :=
      List.perm_append_singleton t _
    exact hps.nodup_iff.mpr (List.nodup_cons.mpr ⟨ht, hnt⟩)

theorem builderInv_apply (b : EventBuilder) (op : BuilderOp) (h : BuilderInv b) :
    BuilderInv (BuilderOp.apply b op) := by
  obtain ⟨hs, hnd, hnt⟩ := h
  cases op with
  | add_event_type t =>
    exact builderInv_add_event_type (b := b) t ⟨hs, hnd, hnt⟩
  | add_distance d =>
    exact builderInv_add_distance (b := b) d ⟨hs, hnd, hnt⟩
  | add_image url =>
    show BuilderInv (b.add_image url)
    unfold EventBuilder.add_image
    split <;> exact ⟨hs, hnd, hnt⟩
  | add_circuit c =>
    show BuilderInv (b.add_circuit c)
    unfold EventBuilder.add_circuit
    split <;> exact ⟨hs, hnd, hnt⟩
  | set_name v ow =>
    show BuilderInv (b.set_name v ow)
    unfold EventBuilder.set_name
    split <;> exact ⟨hs, hnd, hnt⟩
  | set_location v ow =>
    show BuilderInv (b.set_location v ow)
    unfold EventBuilder.set_location
    split <;> exact ⟨hs, hnd, hnt⟩
  | set_coordinates v ow =>
    show BuilderInv (b.set_coordinates v ow)
    unfold EventBuilder.set_coordinates
    split <;> exact ⟨hs, hnd, hnt⟩
  | set_country v ow =>
    show BuilderInv (b.set_country v ow)
    unfold EventBuilder.set_country
    split <;> exact ⟨hs, hnd, hnt⟩
  | set_locality v ow =>
    show BuilderInv (b.set_locality v ow)
    unfold EventBuilder.set_locality
    split <;> exact ⟨hs, hnd, hnt⟩
  | set_administrative_area_level_1 v ow =>
    show BuilderInv (b.set_administrative_area_level_1 v ow)
    unfold EventBuilder.set_administrative_area_level_1
    split <;> exact ⟨hs, hnd, hnt⟩
  | set_administrative_area_level_2 v ow =>
    show BuilderInv (b.set_administrative_area_level_2 v ow)
    unfold EventBuilder.set_administrative_area_level_2
    split <;> exact ⟨hs, hnd, hnt⟩
  | set_administrative_area_level_3 v ow =>
    show BuilderInv (b.set_administrative_area_level_3 v ow)
    unfold EventBuilder.set_administrative_area_level_3
    split <;> exact ⟨hs, hnd, hnt⟩
  | set_district_code v ow =>
    show BuilderInv (b.set_district_code v ow)
    unfold EventBuilder.set_district_code
    split <;> exact ⟨hs, hnd, hnt⟩
  | set_start_date v ow =>
    show BuilderInv (b.set_start_date v ow)
    unfold EventBuilder.set_start_date
    split <;> exact ⟨hs, hnd, hnt⟩
  | set_end_date v ow =>
    show BuilderInv (b.set_end_date v ow)
    unfold EventBuilder.set_end_date
    split <;> exact ⟨hs, hnd, hnt⟩
  | set_description v ow =>
    show BuilderInv (b.set_description v ow)
    unfold EventBuilder.set_description
    split <;> exact ⟨hs, hnd, hnt⟩
  | set_description_short v ow =>
    show BuilderInv (b.set_description_short v ow)
    unfold EventBuilder.set_description_short
    split <;> exact ⟨hs, hnd, hnt⟩
  | set_event_page v ow =>
    show BuilderInv (b.set_event_page v ow)
    unfold EventBuilder.set_event_page
    split <;> exact ⟨hs, hnd, hnt⟩
  | set_slug v ow =>
    show BuilderInv (b.set_slug v ow)
    unfold EventBuilder.set_slug
    split <;> exact ⟨hs, hnd, hnt⟩

theorem builderInv_applyOps (ops : List BuilderOp) :
    ∀ b : EventBuilder, BuilderInv b → BuilderInv (applyOps b ops) := by
  induction ops with
  | nil => intro b h; exact h
  | cons op rest ih =>
    intro b h
    exact ih (BuilderOp.apply b op) (builderInv_apply b op h)

theorem eventType_value_injective : Function.Injective EventType.value := by
  intro a b h
  revert h
  revert a b
  decide

theorem pyOrList_nil_right {α : Type} (l : List α) : pyOrList l [] = l := by
  cases l <;> rfl

/-- **C2 (corrected).** For every sequence of builder operations, the
`Event` returned by `build` has `distances` deduplicated and sorted
ascending, and `types` deduplicated — but `types` is *not* in general
sorted (see `C2_counterexample`): it preserves insertion order. -/
theorem C2_distances_sorted_types_nodup (i : Int) (ops : List BuilderOp) :
    ((applyOps (EventBuilder.init i) ops).build).distances.Sorted (· ≤ ·)
    ∧ ((applyOps (EventBuilder.init i) ops).build).distances.Nodup
    ∧ ((applyOps (EventBuilder.init i) ops).build).types.Nodup := by
  obtain ⟨hs, hnd, hnt⟩ := builderInv_applyOps ops _ (builderInv_init i)
  set b := applyOps (EventBuilder.init i) ops
  have hdist : b.build.distances = b.distances := by
    simp [EventBuilder.build, pyOrList_nil_right]
  have htypes : b.build.types = b.types.map EventType.value := by
    simp [EventBuilder.build, pyOrList_nil_right]
  refine ⟨?_, ?_, ?_⟩
  · rw [hdist]; exact hs
  · rw [hdist]; exact hnd
  · rw [htypes]; exact hnt.map eventType_value_injective

/-- **C2 counterexample.** The claim says `types` is sorted; but `build`
keeps `types` in insertion order: adding marathon then half-marathon gives
`["marathon", "half-marathon"]`, which is not ascending, and adding them
in the opposite order gives a list that is not descending either. -/
theorem C2_counterexample :
    ((applyOps (EventBuilder.init 1)
        [.add_event_type .marathon, .add_event_type .halfMarathon]).build).types
      = ["marathon", "half-marathon"]
    ∧ ¬ ((applyOps (EventBuilder.init 1)
        [.add_event_type .marathon, .add_event_type .halfMarathon]).build).types.Sorted (· ≤ ·)
    ∧ ((applyOps (EventBuilder.init 1)
        [.add_event_type .halfMarathon, .add_event_type .marathon]).build).types
      = ["half-marathon", "marathon"]
    ∧ ¬ ((applyOps (EventBuilder.init 1)
        [.add_event_type .halfMarathon, .add_event_type .marathon]).build).types.Sorted (· ≥ ·) := by
  refine ⟨by decide, ?_, by decide, ?_⟩
  · intro h
    have hcons : (["marathon", "half-marathon"] : List String).Sorted (· ≤ ·) := by
      have : ((applyOps (EventBuilder.init 1)
          [.add_event_type .marathon, .add_event_type .halfMarathon]).build).types
        = ["marathon", "half-marathon"] := by decide
      rwa [this] at h
    have hle : ("marathon" : String) ≤ "half-marathon" :=
      List.rel_of_sorted_cons hcons _ (by simp)
    rw [String.le_iff_toList_le] at hle
    exact absurd hle (by decide)
  · intro h
    have hcons : (["half-marathon", "marathon"] : List String).Sorted (· ≥ ·) := by
      have : ((applyOps (EventBuilder.init 1)
          [.add_event_type .halfMarathon, .add_event_type .marathon]).build).types
        = ["half-marathon", "marathon"] := by decide
      rwa [this] at h
    have hge : ("half-marathon" : String) ≥ "marathon" :=
      List.rel_of_sorted_cons hcons _ (by simp)
    rw [ge_iff_le, String.le_iff_toList_le] at hge
    exact absurd hge (by decide)

/-! ## Claims C6 and C10: district-code lookup -/

/-- The body of `get_district_code` on a `some` argument, exposed as an
equation (pure unfolding). -/
theorem get_district_code_some_eq (dn : String) :
    get_district_code (some dn) =
      if dn = "" then none
      else
        match lookupAssoc PORTUGAL_DISTRICT_CODES dn with
        | some code => some code
        | none =>
          match (districtVariations.find? (fun kv => kv.1 = pyStrip dn)).map (·.2) with
          | some real => lookupAssoc PORTUGAL_DISTRICT_CODES real
          | none =>
            match PORTUGAL_DISTRICT_CODES.find? (districtPartialMatch (pyStrip dn)) with
            | some kv => some kv.2
            | none => none := rfl

/-- Every non-`none` result of `get_district_code` is the code of some
entry of the static table. -/
theorem get_district_code_from_table (o : Option String) :
    get_district_code o = none
    ∨ ∃ kv : String × Int, kv ∈ PORTUGAL_DISTRICT_CODES
        ∧ get_district_code o = some kv.2 := by
  match o with
  | none => exact Or.inl rfl
  | some dn =>
    rw [get_district_code_some_eq]
    by_cases h0 : dn = ""
    · rw [if_pos h0]; exact Or.inl rfl
    · rw [if_neg h0]
      cases hl : lookupAssoc PORTUGAL_DISTRICT_CODES dn with
      | some code =>
        right
        obtain ⟨kv, hfind, hsnd⟩ := Option.map_eq_some'.mp hl
        exact ⟨kv, List.mem_of_find?_eq_some hfind,
          show (some code : Option Int) = some kv.2 by rw [hsnd]⟩
      | none =>
        cases hv : (districtVariations.find? (fun kv => kv.1 = pyStrip dn)).map (·.2) with
        | some real =>
          cases hr : lookupAssoc PORTUGAL_DISTRICT_CODES real with
          | some code =>
            right
            obtain ⟨kv, hfind, hsnd⟩ := Option.map_eq_some'.mp hr
            refine ⟨kv, List.mem_of_find?_eq_some hfind, ?_⟩
            show lookupAssoc PORTUGAL_DISTRICT_CODES real = some kv.2
            rw [hr, hsnd]
          | none =>
            left
            show lookupAssoc PORTUGAL_DISTRICT_CODES real = none
            exact hr
        | none =>
          cases hf : PORTUGAL_DISTRICT_CODES.find? (districtPartialMatch (pyStrip dn)) with
          | some kv =>
            exact Or.inr ⟨kv, List.mem_of_find?_eq_some hf, rfl⟩
          | none => exact Or.inl rfl

/-- **C6.** The district lookup maps names through the fixed static table
(`Lisboa ↦ 11`, `Madeira ↦ 30`), returns `none` for unmapped
(`"Nonexistent"`), empty, or missing names, and every non-`none` answer
is a code from the static table. -/
theorem C6_district_code_lookup :
    get_district_code (some "Lisboa") = some 11
    ∧ get_district_code (some "Madeira") = some 30
    ∧ get_district_code (some "Nonexistent") = none
    ∧ get_district_code none = none
    ∧ get_district_code (some "") = none
    ∧ ∀ o : Option String, get_district_code o = none
        ∨ ∃ kv : String × Int, kv ∈ PORTUGAL_DISTRICT_CODES
            ∧ get_district_code o = some kv.2 :=
  ⟨by decide, by decide, by decide, rfl, by decide, get_district_code_from_table⟩

/-- **C10.** When the exact lookup and the explicit variations both miss,
`get_district_code` falls back to the first table entry matching the
case-insensitive bidirectional substring test, so `"Distrito de Lisboa"`
and `"lisboa"` both resolve to 11. -/
theorem C10_partial_match_fallback :
    (∀ (dn : String) (kv : String × Int), dn ≠ "" →
      lookupAssoc PORTUGAL_DISTRICT_CODES dn = none →
      districtVariations.find? (fun p => p.1 = pyStrip dn) = none →
      PORTUGAL_DISTRICT_CODES.find? (districtPartialMatch (pyStrip dn)) = some kv →
      get_district_code (some dn) = some kv.2)
    ∧ get_district_code (some "Distrito de Lisboa") = some 11
    ∧ get_district_code (some "lisboa") = some 11 := by
  refine ⟨?_, by decide, by decide⟩
  intro dn kv h0 h1 h2 h3
  rw [get_district_code_some_eq, if_neg h0]
  simp only [h1, h2, h3, Option.map_none']

/-- Witness for C10: the general fallback part instantiated at
`"Distrito de Lisboa"`, whose first substring match is `("Lisboa", 11)`. -/
theorem C10_partial_match_fallback_witness :
    get_district_code (some "Distrito de Lisboa") = some (("Lisboa", 11) : String × Int).2 :=
  C10_partial_match_fallback.1 "Distrito de Lisboa" ("Lisboa", 11)
    (by decide) (by decide) (by decide) (by decide)

/-! ## Claim C5: encoding repair -/

theorem replaceAllFuel_of_not_occursIn (p b : List Char) :
    ∀ (fuel : Nat) (s : List Char), s.length ≤ fuel → ¬ OccursIn p s →
      replaceAllFuel p b fuel s = s := by
  intro fuel
  induction fuel with
  | zero => intro s _ _; rfl
  | succ n ih =>
    intro s hlen hocc
    match s with
    | [] => rfl
    | c :: rest =>
      rw [replaceAllFuel]
      have hpre : ¬ (p.isEmpty = false ∧ p.isPrefixOf (c :: rest) = true) := by
        rintro ⟨-, hp⟩
        obtain ⟨t, ht⟩ := List.isPrefixOf_iff_prefix.mp hp
        exact hocc ⟨[], t, by simp [← ht]⟩
      rw [if_neg hpre]
      have hrest : ¬ OccursIn p rest := by
        rintro ⟨l, r, rfl⟩
        exact hocc ⟨c :: l, r, by simp⟩
      have hlen' : rest.length ≤ n := by
        simpa using Nat.le_of_succ_le_succ (by simpa using hlen)
      rw [ih rest hlen' hrest]

theorem replaceAll_of_not_occursIn (p b s : List Char) (h : ¬ OccursIn p s) :
    replaceAll p b s = s :=
  replaceAllFuel_of_not_occursIn p b s.length s (Nat.le_refl _) h

theorem foldl_replaceAll_id (rules : List (String × String)) :
    ∀ s : List Char, (∀ wc ∈ rules, ¬ OccursIn wc.1.toList s) →
      rules.foldl (fun acc wc => replaceAll wc.1.toList wc.2.toList acc) s = s := by
  induction rules with
  | nil => intro s _; rfl
  | cons wc rest ih =>
    intro s h
    have h0 : replaceAll wc.1.toList wc.2.toList s = s :=
      replaceAll_of_not_occursIn _ _ _ (h wc (List.mem_cons_self wc rest))
    simp only [List.foldl_cons, h0]
    exact ih s (fun p hp => h p (List.mem_cons_of_mem wc hp))

theorem foldl_fixes_id (rules : List (String × String)) :
    ∀ s : List Char,
      (∀ wc ∈ rules, ¬ OccursIn wc.1.toList s) →
      (∀ wc ∈ rules, ¬ OccursIn (wc.1.toList.map pyLowerChar) s) →
      rules.foldl
        (fun acc wc =>
          replaceAll (wc.1.toList.map pyLowerChar) (wc.2.toList.map pyLowerChar)
            (replaceAll wc.1.toList wc.2.toList acc)) s = s := by
  induction rules with
  | nil => intro s _ _; rfl
  | cons wc rest ih =>
    intro s h1 h2
    have h0 : replaceAll wc.1.toList wc.2.toList s = s :=
      replaceAll_of_not_occursIn _ _ _ (h1 wc (List.mem_cons_self wc rest))
    have h0' : replaceAll (wc.1.toList.map pyLowerChar) (wc.2.toList.map pyLowerChar) s = s :=
      replaceAll_of_not_occursIn _ _ _ (h2 wc (List.mem_cons_self wc rest))
    simp only [List.foldl_cons, h0, h0']
    exact ih s (fun p hp => h1 p (List.mem_cons_of_mem wc hp))
      (fun p hp => h2 p (List.mem_cons_of_mem wc hp))

/-- **C5 (corrected).** The repair pass is a no-op on already-correct
strings: if none of the known mis-decoded sequences occurs in `s`, then
`fix_encoding s = s`.  (Full idempotence fails: see
`C5_counterexample`.) -/
theorem C5_repair_noop_on_correct (s : List Char)
    (h : ∀ p ∈ fixPatterns, ¬ OccursIn p s) :
    fix_encoding s = s := by
  have h1 : ∀ wc ∈ fixReplacements, ¬ OccursIn wc.1.toList s := by
    intro wc hm
    apply h
    unfold fixPatterns
    exact List.mem_append_left _ (List.mem_append_left _ (List.mem_map_of_mem _ hm))
  have h2 : ∀ wc ∈ additionalFixes, ¬ OccursIn wc.1.toList s := by
    intro wc hm
    apply h
    unfold fixPatterns
    exact List.mem_append_left _ (List.mem_append_right _ (List.mem_map_of_mem _ hm))
  have h3 : ∀ wc ∈ additionalFixes, ¬ OccursIn (wc.1.toList.map pyLowerChar) s := by
    intro wc hm
    apply h
    unfold fixPatterns
    exact List.mem_append_right _ (List.mem_map_of_mem _ hm)
  unfold fix_encoding
  by_cases hs : s = []
  · rw [if_pos hs]
  · rw [if_neg hs]
    rw [foldl_replaceAll_id fixReplacements s h1]
    exact foldl_fixes_id additionalFixes s h2 h3

/-- Witness for C5: a clean Portuguese phrase contains none of the
mis-decoded sequences and passes through the repair untouched. -/
theorem C5_repair_noop_on_correct_witness :
    fix_encoding "Corrida de Lisboa".toList = "Corrida de Lisboa".toList :=
  C5_repair_noop_on_correct _ (by decide)

/-- **C5 counterexample.** `repair` is *not* idempotent on all inputs:
two overlapping copies of the mis-decoded sequence `ORGANIZAÇÇO` leave a
fresh occurrence behind after the first pass (the replacement `…ÇÃO`
re-exposes the trailing `O` of the first copy as the start of the second),
so a second pass changes the string again. -/
theorem C5_counterexample :
    fix_encoding (fix_encoding "ORGANIZAÇÇORGANIZAÇÇO".toList)
      ≠ fix_encoding "ORGANIZAÇÇORGANIZAÇÇO".toList := by decide

/-! ## Claim C4: generation-error propagation -/

/-- **C4 (corrected).** `generate_description` propagates backend errors
and timeouts to the caller; but `infer_event_data` catches every error
from the backend call and returns the default `([], [])` inside the
component instead of propagating it (see `C4_counterexample`).  On
success, `generate_description` returns the stripped backend text. -/
theorem C4_error_propagation :
    (∀ e : PyError, generate_description none (.error e) = .error e)
    ∧ (∀ s : String, generate_description none (.ok s) = .ok (pyStrip s))
    ∧ (∀ e : PyError, infer_event_data none (.error e) = .ok ([], [])) :=
  ⟨fun _ => rfl, fun _ => rfl, fun _ => rfl⟩

/-- **C4 counterexample.** A backend error or timeout inside
`infer_event_data` is *not* propagated: the component returns the default
empty result, contradicting the claim that both generated-text operations
propagate a `GenerationError`. -/
theorem C4_counterexample :
    infer_event_data none (.error .generationError) = .ok ([], [])
    ∧ infer_event_data none (.error .timeout) = .ok ([], [])
    ∧ (infer_event_data none (.error .generationError)).isOk = true :=
  ⟨rfl, rfl, rfl⟩

/-! ## Claim C7: unknown tags warn and are skipped -/

/-- **C7.** A tag that is neither ignored nor present in the type or
circuit tables adds nothing to the builder and produces exactly one
warning — the classifier is a total function, it cannot raise.  A mapped
tag yields its canonical types: `event_type_4-maratona` produces exactly
`[marathon]` with no warning, and `unknown-tag-xyz` leaves the builder
untouched with one warning. -/
theorem C7_unknown_tag_skipped :
    (∀ (b : EventBuilder) (tag : String),
      ignored_class tag = false →
      assocFind? typeMapping tag = none →
      assocFind? circuitMapping tag = none →
      enrich_from_class_list b [tag] = (b, [tag], []))
    ∧ (enrich_from_class_list (EventBuilder.init 1) ["event_type_4-maratona"]).1.types
        = [.marathon]
    ∧ (enrich_from_class_list (EventBuilder.init 1) ["event_type_4-maratona"]).2.1 = []
    ∧ (enrich_from_class_list (EventBuilder.init 1) ["unknown-tag-xyz"]).1
        = EventBuilder.init 1
    ∧ (enrich_from_class_list (EventBuilder.init 1) ["unknown-tag-xyz"]).2.1
        = ["unknown-tag-xyz"] := by
  refine ⟨?_, by decide, by decide, by decide, by decide⟩
  intro b tag h1 h2 h3
  simp [enrich_from_class_list, h1, h2, h3]

/-- Witness for C7: the general unknown-tag part instantiated at
`"unknown-tag-xyz"`. -/
theorem C7_unknown_tag_skipped_witness :
    enrich_from_class_list (EventBuilder.init 7) ["unknown-tag-xyz"]
      = (EventBuilder.init 7, ["unknown-tag-xyz"], []) :=
  C7_unknown_tag_skipped.1 (EventBuilder.init 7) "unknown-tag-xyz"
    (by decide) (by decide) (by decide)

/-! ## Claim C9: cache reads never propagate errors -/

/-- **C9.** `cache_read` is a total function of the file-system state: an
absent entry yields a plain `none` with the file system untouched; a
readable entry yields its content; an entry that exists but cannot be
read yields `none` *and* is deleted, leaving every other path untouched —
in no case does an error reach the caller. -/
theorem C9_cache_read_never_throws :
    (∀ (fs : FileSystem) (p : String), fs.files p = .absent →
      cache_read fs p = (none, fs))
    ∧ (∀ (fs : FileSystem) (p : String) (c : Bytes), fs.files p = .readable c →
      cache_read fs p = (some c, fs))
    ∧ (∀ (fs : FileSystem) (p : String), fs.files p = .corrupt →
      (cache_read fs p).1 = none
      ∧ ((cache_read fs p).2).files p = .absent
      ∧ ∀ q : String, q ≠ p → ((cache_read fs p).2).files q = fs.files q) := by
  refine ⟨?_, ?_, ?_⟩
  · intro fs p h
    simp [cache_read, pathExists, h]
  · intro fs p c h
    simp [cache_read, pathExists, rawRead, h]
  · intro fs p h
    refine ⟨?_, ?_, ?_⟩
    · simp [cache_read, pathExists, rawRead, h]
    · simp [cache_read, pathExists, rawRead, unlink, h]
    · intro q hq
      simp [cache_read, pathExists, rawRead, unlink, h, hq]

/-- Witness for C9: a file system with one corrupt entry; reading it
returns `none` and deletes it. -/
theorem C9_cache_read_never_throws_witness :
    (cache_read ⟨fun q => if q = "entry" then FileState.corrupt else FileState.absent⟩
        "entry").1 = none
    ∧ ((cache_read ⟨fun q => if q = "entry" then FileState.corrupt else FileState.absent⟩
        "entry").2).files "entry" = FileState.absent :=
  ⟨(C9_cache_read_never_throws.2.2
      ⟨fun q => if q = "entry" then FileState.corrupt else FileState.absent⟩
      "entry" (by simp)).1,
   (C9_cache_read_never_throws.2.2
      ⟨fun q => if q = "entry" then FileState.corrupt else FileState.absent⟩
      "entry" (by simp)).2.1⟩

/-! ## Claim C8: aggregate files -/

theorem strLeB_iff_not_lt :
    ∀ as bs : List Char, strLeB as bs = true ↔ ¬ List.lt bs as := by
  intro as
  induction as with
  | nil =>
    intro bs
    constructor
    · intro _ h
      cases h
    · intro _
      rfl
  | cons a as ih =>
    intro bs
    cases bs with
    | nil =>
      simp only [strLeB]
      constructor
      · intro h
        cases h
      · intro h
        exact absurd (List.lt.nil a as) h
    | cons b bs =>
      simp only [strLeB]
      by_cases hab : a < b
      · rw [if_pos hab]
        refine iff_of_true rfl ?_
        intro h
        cases h with
        | head _ _ hba => exact absurd hba (lt_asymm hab)
        | tail hba hab' _ => exact absurd hab hab'
      · by_cases hba : b < a
        · rw [if_neg hab, if_pos hba]
          refine iff_of_false (by simp) ?_
          exact not_not_intro (List.lt.head bs as hba)
        · rw [if_neg hab, if_neg hba, ih bs]
          constructor
          · intro h hl
            cases hl with
            | head _ _ h' => exact absurd h' hba
            | tail _ _ h' => exact h h'
          · intro h h'
            exact h (List.lt.tail hba hab h')

theorem pyStrLe_iff_le (s₁ s₂ : String) : pyStrLe s₁ s₂ = true ↔ s₁ ≤ s₂ := by
  rw [← not_lt, String.lt_iff_toList_lt]
  have h : (s₂.toList < s₁.toList) ↔ List.lt s₂.toList s₁.toList :=
    (List.lt_iff_lex_lt _ _).symm
  rw [h]
  exact strLeB_iff_not_lt s₁.data s₂.data

theorem eventLeB_iff (a b : EventJson) : eventLeB a b = true ↔ SortKeyLe a b := by
  unfold eventLeB SortKeyLe
  cases ha : (sortKey a).1 <;> cases hb : (sortKey b).1 <;>
    simp [ha, hb, pyStrLe_iff_le]

theorem sortKeyLe_total (a b : EventJson) : SortKeyLe a b ∨ SortKeyLe b a := by
  unfold SortKeyLe
  cases ha : (sortKey a).1 <;> cases hb : (sortKey b).1 <;>
    simp [ha, hb] <;> exact le_total _ _

theorem sortKeyLe_trans {a b c : EventJson}
    (h₁ : SortKeyLe a b) (h₂ : SortKeyLe b c) : SortKeyLe a c := by
  unfold SortKeyLe at *
  rcases h₁ with ⟨ha, hb⟩ | ⟨hab, hle₁⟩
  · rcases h₂ with ⟨hb', hc⟩ | ⟨hbc, hle₂⟩
    · rw [hb] at hb'
      cases hb'
    · exact Or.inl ⟨ha, hbc ▸ hb⟩
  · rcases h₂ with ⟨hb', hc⟩ | ⟨hbc, hle₂⟩
    · exact Or.inl ⟨hab ▸ hb', hc⟩
    · exact Or.inr ⟨hab.trans hbc, hle₁.trans hle₂⟩

/-- **C8.** `events.json` is a permutation of the aggregator's input,
sorted by the start-date key; `upcoming.json` consists of exactly the
events whose `start_date` compares on-or-after the run's current date
(and is non-empty), also sorted by the start-date key. -/
theorem C8_events_and_upcoming_sorted (events : List EventJson) (today : String) :
    List.Perm (events_json events) events
    ∧ (events_json events).Pairwise SortKeyLe
    ∧ List.Perm (upcoming_json today events) (events.filter (upcomingPred today))
    ∧ (upcoming_json today events).Pairwise SortKeyLe
    ∧ (∀ e : EventJson,
        e ∈ upcoming_json today events ↔ e ∈ events ∧ upcomingPred today e = true)
    ∧ (∀ e : EventJson, upcomingPred today e = true
        ↔ ∃ s : String, e.start_date = some s ∧ s ≠ "" ∧ today ≤ s) := by
  haveI htot : IsTotal EventJson (fun a b => eventLeB a b = true) :=
    ⟨fun a b => by
      rcases sortKeyLe_total a b with h | h
      · exact Or.inl ((eventLeB_iff a b).mpr h)
      · exact Or.inr ((eventLeB_iff b a).mpr h)⟩
  haveI htr : IsTrans EventJson (fun a b => eventLeB a b = true) :=
    ⟨fun a b c h₁ h₂ => (eventLeB_iff a c).mpr
      (sortKeyLe_trans ((eventLeB_iff a b).mp h₁) ((eventLeB_iff b c).mp h₂))⟩
  refine ⟨List.perm_insertionSort _ _, ?_, List.perm_insertionSort _ _, ?_, ?_, ?_⟩
  · exact (List.sorted_insertionSort _ events).imp fun h => (eventLeB_iff _ _).mp h
  · exact (List.sorted_insertionSort _ _).imp fun h => (eventLeB_iff _ _).mp h
  · intro e
    rw [show upcoming_json today events
        = (events.filter (upcomingPred today)).insertionSort (fun a b => eventLeB a b = true)
      from rfl]
    rw [(List.perm_insertionSort (fun a b => eventLeB a b = true)
      (events.filter (upcomingPred today))).mem_iff]
    exact List.mem_filter
  · intro e
    unfold upcomingPred
    cases hs : e.start_date with
    | none => simp
    | some s => simp [pyStrLe_iff_le]

/-! ## Claim C3: partial-failure isolation in a batch -/

theorem except_toOption_eq_some {ε α : Type} (r : Except ε α) (a : α) :
    r.toOption = some a ↔ r = .ok a := by
  cases r <;> simp [Except.toOption]

theorem processBatch_mem (ids : List Int) (world : Int → ListingWorld)
    (e : Event) :
    e ∈ processBatch ids world ↔ ∃ i ∈ ids, scrape_event i (world i) = .ok e := by
  unfold processBatch
  rw [List.mem_filterMap]
  constructor
  · rintro ⟨r, hr, ho⟩
    obtain ⟨i, hi, rfl⟩ := List.mem_map.mp hr
    exact ⟨i, hi, (except_toOption_eq_some _ _).mp ho⟩
  · rintro ⟨i, hi, hok⟩
    exact ⟨scrape_event i (world i), List.mem_map_of_mem _ hi,
      (except_toOption_eq_some _ _).mpr hok⟩

theorem processBatch_length (world : Int → ListingWorld) :
    ∀ ids : List Int, (processBatch ids world).length
      = (ids.filter (fun i => (scrape_event i (world i)).isOk)).length := by
  intro ids
  induction ids with
  | nil => rfl
  | cons i rest ih =>
    unfold processBatch at *
    cases h : scrape_event i (world i) with
    | ok e =>
      simp only [List.map_cons, List.filterMap_cons, h, Except.toOption,
        List.filter_cons, Except.isOk, Except.toBool]
      simpa using ih
    | error err =>
      simp only [List.map_cons, List.filterMap_cons, h, Except.toOption,
        List.filter_cons, Except.isOk, Except.toBool]
      simpa using ih

/-- **C3 (corrected).** Exception routing in a batch:
(1) whether a listing's pipeline succeeds never depends on the geocoding
outcome, because `geocode` swallows its exceptions and returns `None`
(so a geocoding failure can never remove a listing from the output);
(2) the batch keeps exactly the listings whose pipeline succeeds — an
event appears in the output iff some id's `scrape_event` produced it,
and the output length is the number of succeeding ids;
(3) concretely, when the *detail fetch* (a failure that does propagate)
raises for id 5 of ten, exactly 9 listings remain, id 5 is absent, and
the other nine events are exactly the events of the all-success run. -/
theorem C3_batch_failure_isolation :
    (∀ (i : Int) (w : ListingWorld) (g₁ g₂ : Except PyError GoogleResponse),
      (scrape_event i { w with geo := g₁ }).isOk
        = (scrape_event i { w with geo := g₂ }).isOk)
    ∧ (∀ (ids : List Int) (world : Int → ListingWorld) (e : Event),
      e ∈ processBatch ids world ↔ ∃ i ∈ ids, scrape_event i (world i) = .ok e)
    ∧ (∀ (ids : List Int) (world : Int → ListingWorld),
      (processBatch ids world).length
        = (ids.filter (fun i => (scrape_event i (world i)).isOk)).length)
    ∧ (processBatch c3Ids c3WorldDetailsFail).length = 9
    ∧ (processBatch c3Ids c3WorldDetailsFail).map (fun e => e.id)
        = [1, 2, 3, 4, 6, 7, 8, 9, 10]
    ∧ processBatch c3Ids c3WorldDetailsFail
        = processBatch (c3Ids.filter (fun i => i ≠ 5)) okWorld := by
  refine ⟨?_, processBatch_mem, fun ids world => processBatch_length world ids,
    by decide, by decide, by decide⟩
  intro i w g₁ g₂
  obtain ⟨d, ics, imf, imp, lp, dc, db, ic, ib, g⟩ := w
  dsimp only
  cases d with
  | error e => rfl
  | ok details =>
    cases ics with
    | error e => rfl
    | ok icsv =>
      unfold scrape_event
      dsimp only
      cases enrich_from_llm
          (enrich_from_event_ics
            (enrich_event_link
              (enrich_from_event_details (EventBuilder.init i) details imf imp)
              (some details.link) lp)
            icsv) dc db ic ib with
      | error e => rfl
      | ok b => rfl

/-- **C3 counterexample.** The claim says a geocoding exception for one
id of ten leaves 9 listings in `events.json`.  In fact `geocode` catches
the exception and returns `None`, the listing is still built, and all ten
listings appear — identically to the all-success run. -/
theorem C3_counterexample :
    (processBatch c3Ids c3WorldGeoFail).length = 10
    ∧ (processBatch c3Ids c3WorldGeoFail).map (fun e => e.id) = c3Ids
    ∧ processBatch c3Ids c3WorldGeoFail = processBatch c3Ids okWorld
    ∧ (scrape_events_json c3Ids c3WorldGeoFail).length = 10
    ∧ (5 : Int) ∈ (scrape_events_json c3Ids c3WorldGeoFail).map (fun e => e.id) := by
  decide

end PortugalRunning
